import Mathlib

/-!
Verification development for the form3 Go client library.

The embedding models the source files of the repository:
  part_001 (models and List options), part_000 (the client: Fetch, List,
  Delete, Create, performRequest, checkErrorMessage) and service.go (an
  older variant of the client whose Create encodes through a nil pointer).

Machine integers (Go int) are modelled as Int; byte buffers and request
bodies as String; the JSON decoding performed by the json package is
modelled by the shape a response body decodes to (BodyContent below).
-/

namespace Form3

/-- Model of OrganisationAccountAttributes from part_001.  UUIDs and all
identifier fields are byte strings on the wire; they are modelled as
String. -/
structure OrganisationAccountAttributes where
  country : String
  baseCurrency : String
  accountNumber : String
  bankID : String
  bankIDCode : String
  bic : String
  iban : String
  name : List String
  alternativeNames : List String
  accountClassification : String
  jointAccount : Bool
  accountMatchingOptOut : Bool
  secondaryIdentification : String
  switched : Bool
deriving DecidableEq

/-- Model of OrganisationAccount from part_001.  The uuid.UUID fields are
modelled as String; Version is a Go int, modelled as Int. -/
structure OrganisationAccount where
  id : String
  type : String
  organisationID : String
  version : Int
  attributes : OrganisationAccountAttributes
deriving DecidableEq

/-- The zero value of OrganisationAccountAttributes (what a Go var holds
before json decoding fills it). -/
def emptyAttributes : OrganisationAccountAttributes :=
  ⟨"", "", "", "", "", "", "", [], [], "", false, false, "", false⟩

/-- The zero value of OrganisationAccount. -/
def emptyAccount : OrganisationAccount :=
  ⟨"", "", "", 0, emptyAttributes⟩

/-- Model of an HTTP response body, represented by the shape it decodes to
under the json package:
  errorEnvelope m    - a JSON object providing error_message m
                       (and no data key);
  dataEnvelope a     - a JSON object whose data key holds one record;
  dataListEnvelope l - a JSON object whose data key holds a list of
                       records; the empty list also stands for a body in
                       which the data key is absent, since Go then leaves
                       the slice nil and the client returns it as empty;
  invalidJson e      - bytes that are not valid JSON, e being the decoder
                       error text. -/
inductive BodyContent where
  | errorEnvelope (errorMessage : String)
  | dataEnvelope (account : OrganisationAccount)
  | dataListEnvelope (accounts : List OrganisationAccount)
  | invalidJson (e : String)
deriving DecidableEq

/-- Model of an HTTP response: the status code (Go int) and the body. -/
structure Response where
  statusCode : Int
  body : BodyContent
deriving DecidableEq

/-- Decoding a body into struct with field ErrorMessage string
(checkErrorMessage in part_000).  A valid JSON object without the
error_message key decodes successfully and leaves the zero value "". -/
def decodeErrEnvelope : BodyContent → Except String String
  | .errorEnvelope m => .ok m
  | .dataEnvelope _ => .ok ""
  | .dataListEnvelope _ => .ok ""
  | .invalidJson e => .error e

/-- Decoding a body into struct with field Data OrganisationAccount (Fetch
and Create in part_000).  A data key holding an array cannot be decoded
into a single record and is a decode error in Go. -/
def decodeAccountEnvelope : BodyContent → Except String OrganisationAccount
  | .errorEnvelope _ => .ok emptyAccount
  | .dataEnvelope a => .ok a
  | .dataListEnvelope _ => .error "cannot unmarshal array into field data"
  | .invalidJson e => .error e

/-- Decoding a body into struct with field Data a slice of records (List in
part_000).  A body without the data key leaves the slice nil, which the
client returns as the empty list. -/
def decodeListEnvelope : BodyContent → Except String (List OrganisationAccount)
  | .errorEnvelope _ => .ok []
  | .dataEnvelope _ => .error "cannot unmarshal object into field data"
  | .dataListEnvelope l => .ok l
  | .invalidJson e => .error e

/-- Model of a Go error value returned by the client: either the error
built by errors.New from the decoded error_message, or a json decoder
error, or a transport or request construction error. -/
inductive GoErr where
  | message (s : String)
  | decodeFailure (e : String)
  | transport (e : String)
deriving DecidableEq

/-- Model of checkErrorMessage from part_000: for a status code of at
least 300, decode the body as the error envelope; a decode failure is
returned as is, otherwise errors.New of the decoded message is returned.
For smaller status codes no error (nil) is returned. -/
def checkErrorMessage (resp : Response) : Option GoErr :=
  if 300 ≤ resp.statusCode then
    match decodeErrEnvelope resp.body with
    | .error e => some (.decodeFailure e)
    | .ok m => some (.message m)
  else none

/-- Model of the retriableStatusCodes set from part_000 (a Go map used
only for membership tests). -/
def retriableStatusCodes : List Int := [429, 500, 503, 504]

/-- Membership test in retriableStatusCodes, as performed by
performRequest in part_000. -/
def isRetriable (code : Int) : Bool :=
  retriableStatusCodes.contains code

/-- Model of what one loop iteration of performRequest observes from the
environment: http.NewRequest fails (buildErr), httpClient.Do fails
(sendErr), or a response arrives. -/
inductive Outcome where
  | buildErr (e : String)
  | sendErr (e : String)
  | resp (r : Response)
deriving DecidableEq

/-- Observable result of one performRequest call: the returned response
and error values (Go returns the pair (resp, err)), the number of
physical HTTP sends that took place (calls of httpClient.Do), and the
body bytes each send put on the wire, in order. -/
structure RunResult where
  resp : Option Response
  err : Option String
  sends : Nat
  sentBodies : List String
deriving DecidableEq

/-- The for range ticker.C loop of performRequest in part_000.  The fuel
argument is the number of ticks the backoff ticker still delivers before
its channel closes; i counts the sends so far and indexes the transport
oracle srv; buf holds the bytes still unread in the request body buffer
(http.NewRequest reads the same io.Reader on every iteration, and a
successful or attempted Do drains it); sent accumulates the bodies sent,
in reverse; resp and err carry the Go variables of the same names. -/
def performRequestAux (srv : Nat → Outcome) :
    Nat → Nat → String → List String → Option Response → Option String → RunResult
  | 0, i, _, sent, resp, err => ⟨resp, err, i, sent.reverse⟩
  | t+1, i, buf, sent, resp, _ =>
    match srv i with
    | .buildErr e => ⟨resp, some e, i, sent.reverse⟩
    | .sendErr e => ⟨none, some e, i + 1, (buf :: sent).reverse⟩
    | .resp r =>
      if isRetriable r.statusCode then
        performRequestAux srv t (i + 1) "" (buf :: sent) (some r) none
      else
        ⟨some r, none, i + 1, (buf :: sent).reverse⟩

/-- Model of performRequest from part_000.  The method and url are fixed
for the whole call and feed http.NewRequest; the transport oracle srv
already accounts for them.  The ticks argument is the total number of
ticks the backoff ticker delivers for this call. -/
def performRequest (method url : String) (srv : Nat → Outcome)
    (body : String) (ticks : Nat) : RunResult :=
  performRequestAux srv ticks 0 body [] none none

/-- State of the exponential backoff policy from the backoff package as
configured by part_000: the interval the next wait would take and the
time elapsed since the call started.  Durations are in abstract time
units (Nat); the jitter randomization is abstracted away and the elapsed
time counts the waits (request processing time is taken as zero). -/
structure BackoffState where
  currentInterval : Nat
  elapsed : Nat
deriving DecidableEq

/-- One NextBackOff call of the exponential backoff: once the elapsed
time exceeds maxElapsed it reports Stop (none); otherwise it yields the
current interval as the wait and grows the interval by the multiplier,
capped at maxInterval. -/
def nextBackOff (maxElapsed maxInterval mult : Nat) (s : BackoffState) :
    Option (Nat × BackoffState) :=
  if maxElapsed < s.elapsed then none
  else some (s.currentInterval,
    ⟨min (s.currentInterval * mult) maxInterval, s.elapsed + s.currentInterval⟩)

/-- Number of non-Stop NextBackOff results from state s, computed with
explicit fuel.  Each successful step advances the elapsed time by at
least one unit when the interval stays positive, so any fuel of at least
maxElapsed + 1 - s.elapsed is enough (proved below). -/
def tickCountAux (maxElapsed maxInterval mult : Nat) :
    Nat → BackoffState → Nat
  | 0, _ => 0
  | f + 1, s =>
    match nextBackOff maxElapsed maxInterval mult s with
    | none => 0
    | some (_, s2) => 1 + tickCountAux maxElapsed maxInterval mult f s2

/-- Total number of ticks the backoff ticker delivers for one
performRequest call: the ticker is guaranteed to tick once immediately,
and then once per non-Stop NextBackOff result. -/
def backoffTicks (initialInterval maxElapsed maxInterval mult : Nat) : Nat :=
  1 + tickCountAux maxElapsed maxInterval mult (maxElapsed + 1) ⟨initialInterval, 0⟩

/-- Model of the listOptions struct from part_001. -/
structure listOptions where
  pageNumber : Int
  pageSize : Int
deriving DecidableEq

/-- A List call option, part_001: a function updating listOptions. -/
def ListOption : Type := listOptions → listOptions

/-- The PageNumber option from part_001: sets the page number field. -/
def PageNumber (n : Int) : ListOption :=
  fun lo => { lo with pageNumber := n }

/-- The PageSize option from part_001: sets the page size field. -/
def PageSize (n : Int) : ListOption :=
  fun lo => { lo with pageSize := n }

/-- List in part_000 starts from the zero listOptions value and applies
the variadic options left to right. -/
def applyOptions (loo : List ListOption) : listOptions :=
  loo.foldl (fun acc lo => lo acc) ⟨0, 0⟩

/-- Uppercase hexadecimal digit, as written by the net/url escaper. -/
def toUpperHexDigit (n : Nat) : Char :=
  if n < 10 then Char.ofNat (48 + n) else Char.ofNat (55 + n)

/-- Escaping of one character under url.QueryEscape (ASCII inputs):
alphanumerics and -_.~ are kept, space becomes +, anything else becomes
a percent-escaped byte. -/
def queryEscapeChar (c : Char) : String :=
  if c.isAlphanum ∨ c = '-' ∨ c = '_' ∨ c = '.' ∨ c = '~' then String.singleton c
  else if c = ' ' then "+"
  else String.mk ['%', toUpperHexDigit (c.toNat / 16), toUpperHexDigit (c.toNat % 16)]

/-- Model of url.QueryEscape on the ASCII strings the client produces. -/
def queryEscape (s : String) : String :=
  String.join (s.toList.map queryEscapeChar)

/-- Model of url.Values.Encode for the query the List method builds: the
key value pairs in sorted key order, each escaped, joined with an
ampersand. -/
def encodeValues (q : List (String × String)) : String :=
  String.intercalate "&" (q.map (fun kv => queryEscape kv.1 ++ "=" ++ queryEscape kv.2))

/-- The query parameters List sets, part_000 lines 104 to 110: each of
page[number] and page[size] is set exactly when the corresponding
configured value is not zero.  The key page[number] sorts before
page[size], so this list is in the order Encode emits. -/
def listQuery (o : listOptions) : List (String × String) :=
  (if o.pageNumber ≠ 0 then [("page[number]", toString o.pageNumber)] else []) ++
  (if o.pageSize ≠ 0 then [("page[size]", toString o.pageSize)] else [])

/-- The URL List builds from the base URL and the accumulated options:
the collection path, followed by the encoded query when it is nonempty
(url.URL.String emits no question mark for an empty RawQuery).  The
base URL is assumed to parse and to carry no query of its own. -/
def listURL (baseURL : String) (o : listOptions) : String :=
  baseURL ++ "/v1/organisation/accounts" ++
    (if encodeValues (listQuery o) = "" then "" else "?" ++ encodeValues (listQuery o))

/-- The request URL of a List call with the given options. -/
def listRequestURL (baseURL : String) (loo : List ListOption) : String :=
  listURL baseURL (applyOptions loo)

/-- Model of the List method from part_000: build the URL, perform the
request (GET, nil body), normalize an error status, decode the data
envelope. -/
def ListRun (baseURL : String) (loo : List ListOption) (srv : Nat → Outcome)
    (ticks : Nat) : Except GoErr (List OrganisationAccount) :=
  let r := performRequest "GET" (listRequestURL baseURL loo) srv "" ticks
  match r.err with
  | some e => .error (.transport e)
  | none =>
    match r.resp with
    | none => .error (.transport "no response")
    | some resp =>
      match checkErrorMessage resp with
      | some e => .error e
      | none =>
        match decodeListEnvelope resp.body with
        | .error e => .error (.decodeFailure e)
        | .ok l => .ok l

/-- Result of one Write call on a possibly nil bytes.Buffer pointer:
writing through a nil pointer dereferences it and panics; otherwise the
bytes are appended. -/
inductive WriteResult where
  | panicked (msg : String)
  | written (buf : String)
deriving DecidableEq

/-- Model of json.NewEncoder(w).Encode(v) writing to w, a possibly nil
bytes.Buffer pointer.  Encode first marshals v (which cannot fail for
the OrganisationAccount record type, all of whose fields marshal
totally) and then writes the marshalled bytes and a newline to w; the
write through a nil pointer panics. -/
def writeToBuffer (w : Option String) (s : String) : WriteResult :=
  match w with
  | none => .panicked "invalid memory address or nil pointer dereference"
  | some b => .written (b ++ s)

/-- Model of Create from part_000, parametric in the (total) JSON
marshalling of the record: the envelope is encoded once into a fresh
buffer before performRequest is entered, and the buffer is handed to
performRequest as the request body reader.  Returns the decoded result
and the observable run of the retry loop. -/
def form3Create (baseURL : String) (marshal : OrganisationAccount → String)
    (account : OrganisationAccount) (srv : Nat → Outcome) (ticks : Nat) :
    Except GoErr OrganisationAccount × RunResult :=
  match writeToBuffer (some "") (marshal account ++ "\n") with
  | .panicked m => (.error (.transport m), ⟨none, none, 0, []⟩)
  | .written buf =>
    let r := performRequest "POST" (baseURL ++ "/v1/organisation/accounts") srv buf ticks
    let res : Except GoErr OrganisationAccount :=
      match r.err with
      | some e => .error (.transport e)
      | none =>
        match r.resp with
        | none => .error (.transport "no response")
        | some resp =>
          match checkErrorMessage resp with
          | some e => .error e
          | none =>
            match decodeAccountEnvelope resp.body with
            | .error e => .error (.decodeFailure e)
            | .ok a => .ok a
    (res, r)

/-- Outcome of the Create method of the service.go variant, which returns
only an error: the call panics, fails with an error, or completes. -/
inductive ServiceCreateOutcome where
  | panicked (msg : String)
  | failed (e : GoErr)
  | completed
deriving DecidableEq

/-- Model of Create from service.go: the body variable is declared as a
bytes.Buffer pointer and never allocated (var body bytes.Buffer pointer,
left nil), and the JSON encoder writes the envelope through it. -/
def serviceGoCreate (baseURL : String) (marshal : OrganisationAccount → String)
    (account : OrganisationAccount) (srv : Nat → Outcome) (ticks : Nat) :
    ServiceCreateOutcome × RunResult :=
  match writeToBuffer none (marshal account ++ "\n") with
  | .panicked m => (.panicked m, ⟨none, none, 0, []⟩)
  | .written buf =>
    let r := performRequest "POST" (baseURL ++ "/v1/organisation/accounts") srv buf ticks
    let res : ServiceCreateOutcome :=
      match r.err with
      | some e => .failed (.transport e)
      | none =>
        match r.resp with
        | none => .failed (.transport "no response")
        | some resp =>
          match checkErrorMessage resp with
          | some e => .failed e
          | none => .completed
    (res, r)

example : isRetriable 429 = true := by decide
example : isRetriable 500 = true := by decide
example : isRetriable 503 = true := by decide
example : isRetriable 504 = true := by decide
example : isRetriable 200 = false := by decide
example : isRetriable 404 = false := by decide
example : isRetriable 400 = false := by decide
example : isRetriable 409 = false := by decide
example : isRetriable 502 = false := by decide

example :
    performRequest "GET" "u" (fun _ => .resp ⟨200, .dataListEnvelope []⟩) "" 3 =
      ⟨some ⟨200, .dataListEnvelope []⟩, none, 1, [""]⟩ := by decide

example :
    performRequest "GET" "u"
      (fun i => if i = 0 then .resp ⟨429, .errorEnvelope "busy"⟩
                else .resp ⟨200, .dataListEnvelope []⟩) "b" 3 =
      ⟨some ⟨200, .dataListEnvelope []⟩, none, 2, ["b", ""]⟩ := by decide

example :
    performRequest "GET" "u" (fun _ => .resp ⟨429, .errorEnvelope "busy"⟩) "b" 2 =
      ⟨some ⟨429, .errorEnvelope "busy"⟩, none, 2, ["b", ""]⟩ := by decide

example :
    performRequest "GET" "u"
      (fun i => if i = 0 then .resp ⟨429, .errorEnvelope "busy"⟩
                else .sendErr "refused") "b" 5 =
      ⟨none, some "refused", 2, ["b", ""]⟩ := by decide

example : queryEscape "page[number]" = "page%5Bnumber%5D" := by decide

example : listRequestURL "http://api" [PageNumber 2, PageSize 25] =
    "http://api/v1/organisation/accounts?page%5Bnumber%5D=2&page%5Bsize%5D=25" := by decide

example : listRequestURL "http://api" [PageNumber 0] =
    "http://api/v1/organisation/accounts" := by decide

example : backoffTicks 1 3 60 2 = 4 := by decide

example :
    (form3Create "http://api" (fun _ => "payload") emptyAccount
      (fun i => if i = 0 then .resp ⟨429, .errorEnvelope "rate limited"⟩
                else .resp ⟨201, .dataEnvelope emptyAccount⟩) 5).2.sentBodies =
      ["payload\n", ""] := by decide

example :
    serviceGoCreate "http://api" (fun _ => "p") emptyAccount
      (fun _ => .resp ⟨201, .dataEnvelope emptyAccount⟩) 5 =
      (.panicked "invalid memory address or nil pointer dereference",
        ⟨none, none, 0, []⟩) := by decide

theorem retriable_iff (code : Int) :
    isRetriable code = true ↔
      (code = 429 ∨ code = 500 ∨ code = 503 ∨ code = 504) := by
  simp [isRetriable, retriableStatusCodes, List.contains, List.elem_eq_mem]

theorem retriable_ge_300 (code : Int) (h : isRetriable code = true) :
    300 ≤ code := by
  rcases (retriable_iff code).mp h with h | h | h | h <;> omega

theorem sends_ge (srv : Nat → Outcome) :
    ∀ t i buf sent resp err, i ≤ (performRequestAux srv t i buf sent resp err).sends := by
  intro t
  induction t with
  | zero => intro i buf sent resp err; simp [performRequestAux]
  | succ t ih =>
    intro i buf sent resp err
    simp only [performRequestAux]
    cases hsrv : srv i with
    | buildErr e => simp
    | sendErr e => simp
    | resp r =>
      simp only
      split
      · exact le_trans (Nat.le_succ i) (ih (i + 1) "" (buf :: sent) (some r) none)
      · simp

theorem aux_err_irrelevant (srv : Nat → Outcome)
    (t i : Nat) (buf : String) (sent : List String) (resp : Option Response)
    (e1 e2 : Option String) :
    performRequestAux srv (t + 1) i buf sent resp e1 =
      performRequestAux srv (t + 1) i buf sent resp e2 := by
  simp only [performRequestAux]

theorem aux_skip_retriable_prefix (srv : Nat → Outcome) (t : Nat) :
    ∀ k i buf sent resp0 err0,
      (∀ j, j < k → ∃ r, srv (i + j) = .resp r ∧ isRetriable r.statusCode = true) →
      ∃ buf2 sent2 resp2,
        performRequestAux srv (k + (t + 1)) i buf sent resp0 err0 =
          performRequestAux srv (t + 1) (i + k) buf2 sent2 resp2 none := by
  intro k
  induction k with
  | zero =>
    intro i buf sent resp0 err0 _
    exact ⟨buf, sent, resp0, by
      simpa using aux_err_irrelevant srv t i buf sent resp0 err0 none⟩
  | succ k ih =>
    intro i buf sent resp0 err0 h
    obtain ⟨r, hsrv, hret⟩ := h 0 (Nat.succ_pos k)
    have hstep :
        performRequestAux srv (k + 1 + (t + 1)) i buf sent resp0 err0 =
          performRequestAux srv (k + (t + 1)) (i + 1) "" (buf :: sent) (some r) none := by
      have hfuel : k + 1 + (t + 1) = (k + (t + 1)) + 1 := by omega
      rw [hfuel]
      simp only [performRequestAux]
      rw [show i + 0 = i from rfl] at hsrv
      rw [hsrv]
      simp [hret]
    obtain ⟨buf2, sent2, resp2, hrest⟩ :=
      ih (i + 1) "" (buf :: sent) (some r) none (by
        intro j hj
        obtain ⟨r2, hs, hr⟩ := h (j + 1) (by omega)
        exact ⟨r2, by rw [show i + 1 + j = i + (j + 1) from by omega]; exact hs, hr⟩)
    refine ⟨buf2, sent2, resp2, ?_⟩
    rw [hstep, hrest, show i + 1 + k = i + (k + 1) from by omega]

theorem aux_all_retriable (srv : Nat → Outcome) (rs : Nat → Response)
    (hall : ∀ j, srv j = .resp (rs j))
    (hret : ∀ j, isRetriable (rs j).statusCode = true) :
    ∀ t i buf sent resp0 err0, 1 ≤ t →
      (performRequestAux srv t i buf sent resp0 err0).resp = some (rs (i + t - 1)) ∧
      (performRequestAux srv t i buf sent resp0 err0).err = none ∧
      (performRequestAux srv t i buf sent resp0 err0).sends = i + t := by
  intro t
  induction t with
  | zero => intro i buf sent resp0 err0 h; omega
  | succ t ih =>
    intro i buf sent resp0 err0 _
    have hstep :
        performRequestAux srv (t + 1) i buf sent resp0 err0 =
          performRequestAux srv t (i + 1) "" (buf :: sent) (some (rs i)) none := by
      simp only [performRequestAux]
      rw [hall i]
      simp [hret i]
    cases t with
    | zero =>
      rw [hstep]
      simp [performRequestAux]
    | succ t2 =>
      have := ih (i + 1) "" (buf :: sent) (some (rs i)) none (by omega)
      rw [hstep]
      refine ⟨?_, this.2.1, ?_⟩
      · rw [this.1, show i + 1 + (t2 + 1) - 1 = i + (t2 + 1 + 1) - 1 from by omega]
      · rw [this.2.2]; omega

theorem tickCountAux_fuel_eq (maxElapsed maxInterval mult : Nat)
    (hm : 1 ≤ mult) (hi : 1 ≤ maxInterval) :
    ∀ f g s, 1 ≤ s.currentInterval →
      maxElapsed + 1 - s.elapsed ≤ f → maxElapsed + 1 - s.elapsed ≤ g →
      tickCountAux maxElapsed maxInterval mult f s =
        tickCountAux maxElapsed maxInterval mult g s := by
  intro f
  induction f with
  | zero =>
    intro g s hc hf hg
    have hstop : maxElapsed < s.elapsed := by omega
    cases g with
    | zero => rfl
    | succ g2 => simp [tickCountAux, nextBackOff, hstop]
  | succ f2 ih =>
    intro g s hc hf hg
    by_cases hstop : maxElapsed < s.elapsed
    · cases g with
      | zero => simp [tickCountAux, nextBackOff, hstop]
      | succ g2 => simp [tickCountAux, nextBackOff, hstop]
    · cases g with
      | zero => omega
      | succ g2 =>
        simp only [tickCountAux, nextBackOff, hstop, if_false]
        have hc2 : 1 ≤ min (s.currentInterval * mult) maxInterval :=
          le_min (Nat.one_le_iff_ne_zero.mpr (by positivity)) hi
        have helapsed : s.elapsed + 1 ≤ s.elapsed + s.currentInterval := by omega
        have := ih g2 ⟨min (s.currentInterval * mult) maxInterval,
          s.elapsed + s.currentInterval⟩ hc2 (by simp; omega) (by simp; omega)
        simpa using this

/-- C1: for the first response the executor receives, it retries the
attempt exactly when the status code is one of 429, 500, 503 and 504;
every other status code (all success codes and codes such as 400, 404,
409 included) ends the loop on that attempt and the response is returned
to the caller unchanged. -/
theorem performRequest_retry_classifier
    (method url body : String) (srv : Nat → Outcome) (r : Response) (t : Nat)
    (h0 : srv 0 = .resp r) :
    (isRetriable r.statusCode = true ↔
      (r.statusCode = 429 ∨ r.statusCode = 500 ∨
        r.statusCode = 503 ∨ r.statusCode = 504)) ∧
    (isRetriable r.statusCode = false →
      performRequest method url srv body (t + 1) = ⟨some r, none, 1, [body]⟩) ∧
    (isRetriable r.statusCode = true →
      performRequest method url srv body (t + 1) =
        performRequestAux srv t 1 "" [body] (some r) none) ∧
    (isRetriable r.statusCode = true → (∀ i, ∃ r2, srv i = .resp r2) →
      2 ≤ (performRequest method url srv body (t + 2)).sends) := by
  refine ⟨retriable_iff r.statusCode, ?_, ?_, ?_⟩
  · intro hf
    simp [performRequest, performRequestAux, h0, hf]
  · intro ht
    simp [performRequest, performRequestAux, h0, ht]
  · intro ht hall
    have hstep : performRequest method url srv body (t + 2) =
        performRequestAux srv (t + 1) 1 "" [body] (some r) none := by
      simp [performRequest, performRequestAux, h0, ht]
    rw [hstep]
    obtain ⟨r2, h1⟩ := hall 1
    simp only [performRequestAux, h1]
    split
    · exact sends_ge srv t 2 "" ("" :: [body]) (some r2) none
    · simp

/-- Concrete instance of the C1 theorem: a 404 response is terminal and
is passed through on the first attempt. -/
theorem performRequest_retry_classifier_witness :
    (isRetriable (404 : Int) = true ↔
      ((404 : Int) = 429 ∨ (404 : Int) = 500 ∨
        (404 : Int) = 503 ∨ (404 : Int) = 504)) ∧
    performRequest "GET" "http://api/v1/organisation/accounts/x"
      (fun _ => .resp ⟨404, .errorEnvelope "record does not exist"⟩) "" 1 =
      ⟨some ⟨404, .errorEnvelope "record does not exist"⟩, none, 1, [""]⟩ := by
  have h := performRequest_retry_classifier "GET"
    "http://api/v1/organisation/accounts/x" ""
    (fun _ => .resp ⟨404, .errorEnvelope "record does not exist"⟩)
    ⟨404, .errorEnvelope "record does not exist"⟩ 0 rfl
  exact ⟨h.1, h.2.1 (by decide)⟩

/-- C2: if the server answers a retriable status on exactly the first k
attempts and then a non retriable response, and the tick budget of the
backoff covers k plus one attempts (the cumulative wait stays under the
ceiling), then performRequest performs exactly k plus one physical sends
and returns that final response with no error. -/
theorem performRequest_k_retries_then_done
    (method url body : String) (srv : Nat → Outcome) (k : Nat) (rF : Response)
    (ticks : Nat)
    (hpre : ∀ j, j < k → ∃ r, srv j = .resp r ∧ isRetriable r.statusCode = true)
    (hk : srv k = .resp rF) (hF : isRetriable rF.statusCode = false)
    (hticks : k + 1 ≤ ticks) :
    (performRequest method url srv body ticks).resp = some rF ∧
    (performRequest method url srv body ticks).err = none ∧
    (performRequest method url srv body ticks).sends = k + 1 := by
  obtain ⟨t, rfl⟩ : ∃ t, ticks = k + (t + 1) := ⟨ticks - (k + 1), by omega⟩
  obtain ⟨buf2, sent2, resp2, heq⟩ :=
    aux_skip_retriable_prefix srv t k 0 body [] none none (by simpa using hpre)
  simp only [Nat.zero_add] at heq
  simp only [performRequest]
  rw [heq]
  simp [performRequestAux, hk, hF]

/-- Concrete instance of the C2 theorem with k equal to one: a 429 then a
200 give exactly two sends and the 200 response. -/
theorem performRequest_k_retries_then_done_witness :
    (performRequest "GET" "http://api/v1/organisation/accounts"
      (fun i => if i = 0 then .resp ⟨429, .errorEnvelope "busy"⟩
                else .resp ⟨200, .dataListEnvelope []⟩) "" 4).resp =
      some ⟨200, .dataListEnvelope []⟩ ∧
    (performRequest "GET" "http://api/v1/organisation/accounts"
      (fun i => if i = 0 then .resp ⟨429, .errorEnvelope "busy"⟩
                else .resp ⟨200, .dataListEnvelope []⟩) "" 4).err = none ∧
    (performRequest "GET" "http://api/v1/organisation/accounts"
      (fun i => if i = 0 then .resp ⟨429, .errorEnvelope "busy"⟩
                else .resp ⟨200, .dataListEnvelope []⟩) "" 4).sends = 1 + 1 := by
  refine performRequest_k_retries_then_done "GET"
    "http://api/v1/organisation/accounts" ""
    (fun i => if i = 0 then .resp ⟨429, .errorEnvelope "busy"⟩
              else .resp ⟨200, .dataListEnvelope []⟩)
    1 ⟨200, .dataListEnvelope []⟩ 4 ?_ rfl (by decide) (by decide)
  intro j hj
  have hj0 : j = 0 := by omega
  subst hj0
  exact ⟨⟨429, .errorEnvelope "busy"⟩, rfl, by decide⟩

/-- C3: with a server answering a retriable status on every attempt, the
executor stops exactly when the backoff ticker stops: after the finite
number of ticks the policy yields before the cumulative wait exceeds the
configured ceiling, it returns the last response as a terminal outcome
with a nil error.  The tick count is an intrinsic finite number: any two
sufficient fuels compute the same count. -/
theorem performRequest_terminates_on_exhaustion
    (method url body : String)
    (initialInterval maxElapsed maxInterval mult : Nat)
    (hinit : 1 ≤ initialInterval) (hmult : 1 ≤ mult) (hmax : 1 ≤ maxInterval)
    (r : Response) (hr : isRetriable r.statusCode = true)
    (srv : Nat → Outcome) (hsrv : ∀ i, srv i = .resp r)
    (f g : Nat) (hf : maxElapsed + 1 ≤ f) (hg : maxElapsed + 1 ≤ g) :
    1 ≤ backoffTicks initialInterval maxElapsed maxInterval mult ∧
    (performRequest method url srv body
        (backoffTicks initialInterval maxElapsed maxInterval mult)).resp = some r ∧
    (performRequest method url srv body
        (backoffTicks initialInterval maxElapsed maxInterval mult)).err = none ∧
    (performRequest method url srv body
        (backoffTicks initialInterval maxElapsed maxInterval mult)).sends =
      backoffTicks initialInterval maxElapsed maxInterval mult ∧
    tickCountAux maxElapsed maxInterval mult f ⟨initialInterval, 0⟩ =
      tickCountAux maxElapsed maxInterval mult g ⟨initialInterval, 0⟩ := by
  have h1 : 1 ≤ backoffTicks initialInterval maxElapsed maxInterval mult :=
    Nat.le_add_right 1 _
  have h := aux_all_retriable srv (fun _ => r) hsrv (fun _ => hr)
    (backoffTicks initialInterval maxElapsed maxInterval mult)
    0 body [] none none h1
  refine ⟨h1, h.1, h.2.1, by simpa using h.2.2, ?_⟩
  exact tickCountAux_fuel_eq maxElapsed maxInterval mult hmult hmax f g
    ⟨initialInterval, 0⟩ hinit (by simpa using hf) (by simpa using hg)

/-- Concrete instance of the C3 theorem: initial interval one, multiplier
two, ceiling three, a server always answering 429; the run ends after
backoffTicks 1 3 60 2 sends with the 429 response and no error. -/
theorem performRequest_terminates_on_exhaustion_witness :
    1 ≤ backoffTicks 1 3 60 2 ∧
    (performRequest "GET" "http://api/v1/organisation/accounts"
        (fun _ => .resp ⟨429, .errorEnvelope "busy"⟩) "" (backoffTicks 1 3 60 2)).resp =
      some ⟨429, .errorEnvelope "busy"⟩ ∧
    (performRequest "GET" "http://api/v1/organisation/accounts"
        (fun _ => .resp ⟨429, .errorEnvelope "busy"⟩) "" (backoffTicks 1 3 60 2)).err =
      none ∧
    (performRequest "GET" "http://api/v1/organisation/accounts"
        (fun _ => .resp ⟨429, .errorEnvelope "busy"⟩) "" (backoffTicks 1 3 60 2)).sends =
      backoffTicks 1 3 60 2 ∧
    tickCountAux 3 60 2 4 ⟨1, 0⟩ = tickCountAux 3 60 2 9 ⟨1, 0⟩ :=
  performRequest_terminates_on_exhaustion "GET"
    "http://api/v1/organisation/accounts" "" 1 3 60 2
    (by decide) (by decide) (by decide)
    ⟨429, .errorEnvelope "busy"⟩ (by decide)
    (fun _ => .resp ⟨429, .errorEnvelope "busy"⟩) (fun _ => rfl)
    4 9 (by decide) (by decide)

/-- C4: concrete run of the Create of part_000 at the failing input.  The
payload is buffered once before the loop, the first physical attempt
drains the shared buffer, and because http.NewRequest is handed the same
drained reader again, the second physical attempt of the same logical
call puts an empty body on the wire instead of the full encoded payload. -/
theorem form3Create_second_attempt_sends_empty_body :
    (form3Create "http://api" (fun _ => "payload") emptyAccount
      (fun i => if i = 0 then .resp ⟨429, .errorEnvelope "rate limited"⟩
                else .resp ⟨201, .dataEnvelope emptyAccount⟩) 5).2.sentBodies =
      ["payload\n", ""] ∧
    (form3Create "http://api" (fun _ => "payload") emptyAccount
      (fun i => if i = 0 then .resp ⟨429, .errorEnvelope "rate limited"⟩
                else .resp ⟨201, .dataEnvelope emptyAccount⟩) 5).2.sends = 2 := by
  decide

/-- C5: performRequest never builds a domain error itself.  When the
backoff reports exhaustion while the server keeps answering retriable
statuses, the loop stops and returns the last response, still carrying
its retriable (server side, at least 300) status code, together with a
nil error; it is the normalization step checkErrorMessage of the caller
that turns that response into the server message error. -/
theorem performRequest_exhaustion_surfaces_last_response
    (method url body : String) (srv : Nat → Outcome) (rs : Nat → Response)
    (t : Nat) (m : String) (ht : 1 ≤ t)
    (hall : ∀ i, srv i = .resp (rs i))
    (hret : ∀ i, isRetriable (rs i).statusCode = true)
    (hbody : (rs (t - 1)).body = .errorEnvelope m) :
    (performRequest method url srv body t).err = none ∧
    (performRequest method url srv body t).resp = some (rs (t - 1)) ∧
    isRetriable (rs (t - 1)).statusCode = true ∧
    300 ≤ (rs (t - 1)).statusCode ∧
    checkErrorMessage (rs (t - 1)) = some (.message m) := by
  have h := aux_all_retriable srv rs hall hret t 0 body [] none none ht
  have h300 := retriable_ge_300 _ (hret (t - 1))
  refine ⟨h.2.1, by simpa using h.1, hret _, h300, ?_⟩
  simp [checkErrorMessage, hbody, decodeErrEnvelope, h300]

/-- Concrete instance of the C5 theorem: three ticks of budget, a server
always answering 429; the executor returns the last 429 response with a
nil error and checkErrorMessage reports the server message. -/
theorem performRequest_exhaustion_surfaces_last_response_witness :
    (performRequest "GET" "http://api/v1/organisation/accounts"
      (fun _ => .resp ⟨429, .errorEnvelope "rate limit exceeded"⟩) "" 3).err = none ∧
    (performRequest "GET" "http://api/v1/organisation/accounts"
      (fun _ => .resp ⟨429, .errorEnvelope "rate limit exceeded"⟩) "" 3).resp =
      some ⟨429, .errorEnvelope "rate limit exceeded"⟩ ∧
    isRetriable ((429 : Int)) = true ∧
    (300 : Int) ≤ 429 ∧
    checkErrorMessage ⟨429, .errorEnvelope "rate limit exceeded"⟩ =
      some (.message "rate limit exceeded") :=
  performRequest_exhaustion_surfaces_last_response "GET"
    "http://api/v1/organisation/accounts" ""
    (fun _ => .resp ⟨429, .errorEnvelope "rate limit exceeded"⟩)
    (fun _ => ⟨429, .errorEnvelope "rate limit exceeded"⟩)
    3 "rate limit exceeded" (by decide) (fun _ => rfl)
    (by intro i; show isRetriable (429 : Int) = true; decide) rfl

/-- C6 amended: for every response with status at least 300 whose body
decodes as the error envelope, checkErrorMessage returns the plain error
carrying the server message verbatim, identical for every such status
code (there is no not-found, version-conflict or validation
classification by status code), and a body that cannot be decoded yields
the decoder error, a value distinct from every message error. -/
theorem checkErrorMessage_verbatim_unclassified
    (code code2 : Int) (m e : String) (h1 : 300 ≤ code) (h2 : 300 ≤ code2) :
    checkErrorMessage ⟨code, .errorEnvelope m⟩ = some (.message m) ∧
    checkErrorMessage ⟨code, .errorEnvelope m⟩ =
      checkErrorMessage ⟨code2, .errorEnvelope m⟩ ∧
    checkErrorMessage ⟨code, .invalidJson e⟩ = some (.decodeFailure e) ∧
    GoErr.decodeFailure e ≠ GoErr.message m := by
  refine ⟨?_, ?_, ?_, by simp⟩ <;>
    simp [checkErrorMessage, decodeErrEnvelope, h1, h2]

/-- C6 counterexample: a 404 response and a 409 response carrying the
same envelope produce the very same unclassified message error; the
normalizer does not distinguish not-found from version-conflict. -/
theorem checkErrorMessage_404_409_identical :
    checkErrorMessage ⟨404, .errorEnvelope "record conflict"⟩ =
      some (.message "record conflict") ∧
    checkErrorMessage ⟨409, .errorEnvelope "record conflict"⟩ =
      some (.message "record conflict") ∧
    checkErrorMessage ⟨404, .errorEnvelope "record conflict"⟩ =
      checkErrorMessage ⟨409, .errorEnvelope "record conflict"⟩ := by
  decide

/-- Concrete instance of the C6 theorem at status codes 500 and 503. -/
theorem checkErrorMessage_verbatim_unclassified_witness :
    checkErrorMessage ⟨500, .errorEnvelope "server error"⟩ =
      some (.message "server error") ∧
    checkErrorMessage ⟨500, .errorEnvelope "server error"⟩ =
      checkErrorMessage ⟨503, .errorEnvelope "server error"⟩ ∧
    checkErrorMessage ⟨500, .invalidJson "unexpected end of JSON input"⟩ =
      some (.decodeFailure "unexpected end of JSON input") := by
  have h := checkErrorMessage_verbatim_unclassified 500 503 "server error"
    "unexpected end of JSON input" (by decide) (by decide)
  exact ⟨h.1, h.2.1, h.2.2.1⟩

/-- C7: if request construction or the transport send fails on an
attempt, the retry loop stops at once and returns that error as
terminal: however much tick budget remains, the failing attempt is the
last one, so a transport failure is never followed by another physical
attempt. -/
theorem performRequest_transport_error_terminal
    (method url body : String) (srv : Nat → Outcome) (t i : Nat) (e : String)
    (hpre : ∀ j, j < i → ∃ r, srv j = .resp r ∧ isRetriable r.statusCode = true)
    (hit : i < t) :
    (srv i = .sendErr e →
      (performRequest method url srv body t).err = some e ∧
      (performRequest method url srv body t).resp = none ∧
      (performRequest method url srv body t).sends = i + 1) ∧
    (srv i = .buildErr e →
      (performRequest method url srv body t).err = some e ∧
      (performRequest method url srv body t).sends = i) := by
  obtain ⟨t2, rfl⟩ : ∃ t2, t = i + (t2 + 1) := ⟨t - (i + 1), by omega⟩
  obtain ⟨buf2, sent2, resp2, heq⟩ :=
    aux_skip_retriable_prefix srv t2 i 0 body [] none none (by simpa using hpre)
  simp only [Nat.zero_add] at heq
  constructor
  · intro hs
    simp only [performRequest]
    rw [heq]
    simp [performRequestAux, hs]
  · intro hb
    simp only [performRequest]
    rw [heq]
    simp [performRequestAux, hb]

/-- Concrete instance of the C7 theorem: a 429 followed by a failing send
gives exactly two sends, the transport error and a nil response, with
three ticks of budget remaining. -/
theorem performRequest_transport_error_terminal_witness :
    (performRequest "GET" "http://api/v1/organisation/accounts"
      (fun j => if j = 0 then .resp ⟨429, .errorEnvelope "busy"⟩
                else .sendErr "connection refused") "" 5).err =
      some "connection refused" ∧
    (performRequest "GET" "http://api/v1/organisation/accounts"
      (fun j => if j = 0 then .resp ⟨429, .errorEnvelope "busy"⟩
                else .sendErr "connection refused") "" 5).resp = none ∧
    (performRequest "GET" "http://api/v1/organisation/accounts"
      (fun j => if j = 0 then .resp ⟨429, .errorEnvelope "busy"⟩
                else .sendErr "connection refused") "" 5).sends = 1 + 1 := by
  have h := performRequest_transport_error_terminal "GET"
    "http://api/v1/organisation/accounts" ""
    (fun j => if j = 0 then .resp ⟨429, .errorEnvelope "busy"⟩
              else .sendErr "connection refused")
    5 1 "connection refused" ?_ (by decide)
  · exact h.1 rfl
  · intro j hj
    have hj0 : j = 0 := by omega
    subst hj0
    exact ⟨⟨429, .errorEnvelope "busy"⟩, rfl, by decide⟩

/-- C8 amended: the request URL of List carries the page[number]
parameter exactly when the configured page number is nonzero and the
page[size] parameter exactly when the configured page size is nonzero
(an explicitly configured zero is indistinguishable from an absent
option and is omitted, so the server default applies), and a response
whose data list is empty or absent is returned as a success carrying the
empty list, not as an error. -/
theorem list_pagination_params_and_empty_success
    (base : String) (loo : List ListOption) (srv : Nat → Outcome) (t : Nat) :
    ((("page[number]", toString (applyOptions loo).pageNumber) ∈
        listQuery (applyOptions loo)) ↔ (applyOptions loo).pageNumber ≠ 0) ∧
    ((("page[size]", toString (applyOptions loo).pageSize) ∈
        listQuery (applyOptions loo)) ↔ (applyOptions loo).pageSize ≠ 0) ∧
    ((applyOptions loo).pageNumber = 0 → (applyOptions loo).pageSize = 0 →
      listRequestURL base loo = base ++ "/v1/organisation/accounts") ∧
    (1 ≤ t → srv 0 = .resp ⟨200, .dataListEnvelope []⟩ →
      ListRun base loo srv t = .ok []) := by
  refine ⟨?_, ?_, ?_, ?_⟩
  · by_cases hn : (applyOptions loo).pageNumber = 0 <;>
      by_cases hs : (applyOptions loo).pageSize = 0 <;>
      simp [listQuery, hn, hs]
  · by_cases hn : (applyOptions loo).pageNumber = 0 <;>
      by_cases hs : (applyOptions loo).pageSize = 0 <;>
      simp [listQuery, hn, hs]
  · intro hn hs
    simp [listRequestURL, listURL, listQuery, hn, hs, encodeValues,
      (by decide : ("&".intercalate ([] : List String) : String) = "")]
  · intro ht hs
    obtain ⟨t2, rfl⟩ : ∃ t2, t = t2 + 1 := ⟨t - 1, by omega⟩
    simp [ListRun, performRequest, performRequestAux, hs,
      (by decide : isRetriable (200 : Int) = false),
      checkErrorMessage, decodeListEnvelope,
      (by decide : ¬ (300 : Int) ≤ 200)]

/-- C8 counterexample: the caller explicitly configures page number zero,
yet the built URL carries no page[number] parameter at all and equals
the URL of a call with no options. -/
theorem list_pageNumber_zero_dropped :
    listRequestURL "http://api" [PageNumber 0] =
      "http://api/v1/organisation/accounts" ∧
    listRequestURL "http://api" [PageNumber 0] = listRequestURL "http://api" [] ∧
    listQuery (applyOptions [PageNumber 0]) = [] := by
  decide

/-- Concrete instance of the C8 theorem: no options yield the bare
collection URL, and an empty data list decodes to a successful empty
result. -/
theorem list_pagination_params_and_empty_success_witness :
    listRequestURL "http://api" [] = "http://api/v1/organisation/accounts" ∧
    ListRun "http://api" []
      (fun _ => .resp ⟨200, .dataListEnvelope []⟩) 1 = .ok [] := by
  have h := list_pagination_params_and_empty_success "http://api" []
    (fun _ => .resp ⟨200, .dataListEnvelope []⟩) 1
  exact ⟨h.2.2.1 rfl rfl, h.2.2.2 (by decide) rfl⟩

/-- C9: every invocation of the Create of the service.go variant writes
the encoded envelope through a nil bytes.Buffer pointer, so it panics
with the nil dereference before any HTTP request is sent: zero physical
sends take place, and in particular the branch that would return an
encoding error is never reached. -/
theorem serviceGoCreate_always_panics
    (baseURL : String) (marshal : OrganisationAccount → String)
    (account : OrganisationAccount) (srv : Nat → Outcome) (ticks : Nat) :
    serviceGoCreate baseURL marshal account srv ticks =
      (.panicked "invalid memory address or nil pointer dereference",
        ⟨none, none, 0, []⟩) :=
  rfl

/-- C10: List applies its variadic options left to right to the fresh
options value, so a later option of the same kind overwrites an earlier
one, and options of different kinds commute: the URL built from
PageNumber a, PageNumber b then the rest equals the one built from
PageNumber b then the rest, likewise for PageSize, and swapping a
PageNumber with a PageSize leaves the accumulated options unchanged. -/
theorem list_options_last_wins
    (base : String) (a b s : Int) (rest : List ListOption) :
    listRequestURL base (PageNumber a :: PageNumber b :: rest) =
      listRequestURL base (PageNumber b :: rest) ∧
    listRequestURL base (PageSize a :: PageSize b :: rest) =
      listRequestURL base (PageSize b :: rest) ∧
    applyOptions (PageNumber a :: PageSize s :: rest) =
      applyOptions (PageSize s :: PageNumber a :: rest) :=
  ⟨rfl, rfl, rfl⟩

end Form3
